import Mathlib

/-!
Verification of RenderTools (coyleej/RenderTools).

This file gives a shallow embedding, in Lean 4, of the numeric and
list-manipulating parts of the RenderTools code base (isosurface cutoff
handling, mesh2 text formatting, field-array reorientation, device layer
classification, dimension accumulation, slab placement, and color/finish
resolution), together with theorems settling the specification claims
about those parts.

Python floats are modelled as rationals (`ℚ`), Python lists as `List`,
numpy arrays as an index function together with a shape, and fallible
code as `Except`.
-/

namespace RenderTools

/-! ### util_iso.create_mesh2 / povray_iso.create_mesh2: cutoff handling

Source (identical in util_iso.py lines 56-77 and povray_iso.py lines
67-88):

    field_min = np.amin(field)
    field_max = np.amax(field)
    for i in range(len(cutoffs)):
        if cutoffs[i] <= field_min:
            cutoffs[i] = 1.0001 * field_min
        elif cutoffs[i] >= field_max:
            cutoffs[i] = 0.9999 * field_max
    cutoffs = sorted(set(cutoffs))
    if isinstance(cmap_limits[0], str):
        cmap_limits[0] = min(cutoffs)
    if isinstance(cmap_limits[1], str):
        cmap_limits[1] = max(cutoffs)
-/

/-- The per-element clamp applied by the `for i in range(len(cutoffs))`
loop body of `create_mesh2`. -/
def create_mesh2_clamp (field_min field_max c : ℚ) : ℚ :=
  if c ≤ field_min then 1.0001 * field_min
  else if field_max ≤ c then 0.9999 * field_max
  else c

/-- The clamp loop of `create_mesh2`: the in-place assignments
`cutoffs[i] = ...` traverse the list once, left to right, each slot
written independently of the others. -/
def create_mesh2_clamp_loop (field_min field_max : ℚ) : List ℚ → List ℚ
  | [] => []
  | c :: rest =>
      (if c ≤ field_min then 1.0001 * field_min
       else if field_max ≤ c then 0.9999 * field_max
       else c) :: create_mesh2_clamp_loop field_min field_max rest

/-- Python's `sorted(set(l))`: the distinct values of `l` in ascending
order. -/
def sortedSet (l : List ℚ) : List ℚ :=
  l.dedup.insertionSort (· ≤ ·)

/-- The surviving cutoff list that `create_mesh2` feeds to marching
cubes: clamp loop followed by `sorted(set(...))`. -/
def create_mesh2_cutoffs (field_min field_max : ℚ) (cutoffs : List ℚ) : List ℚ :=
  sortedSet (create_mesh2_clamp_loop field_min field_max cutoffs)

theorem create_mesh2_clamp_loop_eq_map (field_min field_max : ℚ) (l : List ℚ) :
    create_mesh2_clamp_loop field_min field_max l =
      l.map (create_mesh2_clamp field_min field_max) := by
  induction l with
  | nil => rfl
  | cons c rest ih => simp [create_mesh2_clamp_loop, create_mesh2_clamp, ih]

theorem sortedSet_sorted_lt (l : List ℚ) : (sortedSet l).Sorted (· < ·) := by
  have hperm : List.Perm (l.dedup.insertionSort (· ≤ ·)) l.dedup :=
    List.perm_insertionSort _ _
  have hnodup : (l.dedup.insertionSort (· ≤ ·)).Nodup :=
    hperm.nodup_iff.mpr l.nodup_dedup
  have hsorted : (l.dedup.insertionSort (· ≤ ·)).Sorted (· ≤ ·) :=
    List.sorted_insertionSort _ _
  have hpair := List.Pairwise.and hsorted hnodup
  exact hpair.imp (fun h => lt_of_le_of_ne h.1 h.2)

/-- C4: for every field extrema pair and every cutoff list (repeats
included), the surviving cutoff sequence used for mesh generation —
the clamp loop followed by `sorted(set(cutoffs))` — has no duplicates
and is in strictly ascending order. -/
theorem create_mesh2_cutoffs_nodup_strictly_ascending
    (field_min field_max : ℚ) (cutoffs : List ℚ) :
    (create_mesh2_cutoffs field_min field_max cutoffs).Sorted (· < ·) ∧
      (create_mesh2_cutoffs field_min field_max cutoffs).Nodup := by
  have h := sortedSet_sorted_lt (create_mesh2_clamp_loop field_min field_max cutoffs)
  exact ⟨h, h.nodup⟩

/-- C1 counterexample: for the field range `[-1, 1]`, the cutoff `-1`
sits at the field minimum, and the clamp replaces it by
`1.0001 * (-1) = -1.0001`, which lies strictly BELOW the field minimum —
not strictly inside `[field_min, field_max]` as the claim states. -/
theorem create_mesh2_clamp_not_inside_at_negative_min :
    create_mesh2_clamp (-1) 1 (-1) < -1 ∧
      ¬ ((-1 : ℚ) < create_mesh2_clamp (-1) 1 (-1) ∧
          create_mesh2_clamp (-1) 1 (-1) < 1) := by
  constructor
  · norm_num [create_mesh2_clamp]
  · intro h
    have := h.1
    norm_num [create_mesh2_clamp] at this

/-- C1 (amended): cutoffs strictly inside `[field_min, field_max]` are
left unchanged by the clamp loop; and PROVIDED the extrema are positive
and the epsilon-shifted values fall inside the range
(`0 < field_min`, `1.0001 * field_min < field_max`,
`field_min < 0.9999 * field_max`), every cutoff at or below the minimum
is replaced by `1.0001 * field_min` and every cutoff at or above the
maximum by `0.9999 * field_max`, both strictly inside the range.
(For non-positive extrema the replacement can land on or outside the
range, as the counterexample shows.) -/
theorem create_mesh2_clamp_strictly_inside
    (field_min field_max : ℚ) (cutoffs : List ℚ)
    (h1 : 0 < field_min)
    (h2 : 1.0001 * field_min < field_max)
    (h3 : field_min < 0.9999 * field_max) :
    create_mesh2_clamp_loop field_min field_max cutoffs =
        cutoffs.map (create_mesh2_clamp field_min field_max) ∧
      ∀ c ∈ cutoffs,
        (field_min < c ∧ c < field_max →
          create_mesh2_clamp field_min field_max c = c) ∧
        (c ≤ field_min →
          create_mesh2_clamp field_min field_max c = 1.0001 * field_min ∧
            field_min < create_mesh2_clamp field_min field_max c ∧
            create_mesh2_clamp field_min field_max c < field_max) ∧
        (field_max ≤ c →
          create_mesh2_clamp field_min field_max c = 0.9999 * field_max ∧
            field_min < create_mesh2_clamp field_min field_max c ∧
            create_mesh2_clamp field_min field_max c < field_max) := by
  have hmm : field_min < field_max := by nlinarith
  refine ⟨create_mesh2_clamp_loop_eq_map _ _ _, fun c _ => ⟨?_, ?_, ?_⟩⟩
  · rintro ⟨hlo, hhi⟩
    have h1' : ¬ c ≤ field_min := not_le.mpr hlo
    have h2' : ¬ field_max ≤ c := not_le.mpr hhi
    simp [create_mesh2_clamp, h1', h2']
  · intro hle
    have : create_mesh2_clamp field_min field_max c = 1.0001 * field_min := by
      simp [create_mesh2_clamp, hle]
    refine ⟨this, ?_, ?_⟩ <;> rw [this] <;> nlinarith
  · intro hge
    have hnotle : ¬ c ≤ field_min := by
      intro hcle
      have : field_max ≤ field_min := le_trans hge hcle
      exact absurd hmm (not_lt.mpr this)
    have : create_mesh2_clamp field_min field_max c = 0.9999 * field_max := by
      simp [create_mesh2_clamp, hnotle, hge]
    refine ⟨this, ?_, ?_⟩ <;> rw [this] <;> nlinarith

/-- C1 witness: at field range `[1, 2]`, the cutoff `1` (at the
minimum) is clamped to `1.0001`, strictly inside the range. -/
theorem create_mesh2_clamp_strictly_inside_witness :
    create_mesh2_clamp 1 2 1 = 1.0001 * 1 ∧
      (1 : ℚ) < create_mesh2_clamp 1 2 1 ∧ create_mesh2_clamp 1 2 1 < 2 :=
  ((create_mesh2_clamp_strictly_inside 1 2 [1] (by norm_num) (by norm_num)
      (by norm_num)).2 1 (by norm_num)).2.1 (le_refl 1)

/-! ### create_mesh2 as observed by the caller (frame effects)

`create_mesh2` mutates its `cutoffs` argument in place through the
clamp loop (`cutoffs[i] = ...`), rebinds the local name to
`sorted(set(cutoffs))` (so later steps no longer touch the caller's
list), and mutates `cmap_limits[0]` / `cmap_limits[1]` in place when
they are strings (`isinstance(cmap_limits[k], str)`), writing the
min/max of the surviving cutoff list. `min`/`max` of an empty list
raises `ValueError` in Python.
-/

/-- A `cmap_limits` entry: Python code distinguishes strings from
numbers via `isinstance(..., str)`. -/
inductive CmapEntry where
  | str (s : String)
  | num (q : ℚ)
deriving DecidableEq, Repr

/-- Resolution of one `cmap_limits` slot: a string entry is overwritten
with the given extremum of the surviving cutoffs, a numeric entry is
left as is. -/
def cmapResolve (e : CmapEntry) (v : ℚ) : CmapEntry :=
  match e with
  | .str _ => .num v
  | .num q => .num q

/-- Caller-visible state left behind by `create_mesh2`: the mutated
`cutoffs` list and the mutated `cmap_limits` pair, or the Python
exception raised while computing them. -/
def create_mesh2_state (field_min field_max : ℚ) (cutoffs : List ℚ)
    (cmap_limits : CmapEntry × CmapEntry) :
    Except String (List ℚ × CmapEntry × CmapEntry) := do
  let clamped := create_mesh2_clamp_loop field_min field_max cutoffs
  let surviving := sortedSet clamped
  let lim0 ← match cmap_limits.1 with
    | .str _ =>
        match surviving.min? with
        | some m => pure (CmapEntry.num m)
        | none => throw "ValueError: min() arg is an empty sequence"
    | .num q => pure (CmapEntry.num q)
  let lim1 ← match cmap_limits.2 with
    | .str _ =>
        match surviving.max? with
        | some m => pure (CmapEntry.num m)
        | none => throw "ValueError: max() arg is an empty sequence"
    | .num q => pure (CmapEntry.num q)
  return (clamped, lim0, lim1)

theorem sortedSet_ne_nil {l : List ℚ} (h : l ≠ []) : sortedSet l ≠ [] := by
  intro hs
  have hperm : List.Perm (l.dedup.insertionSort (· ≤ ·)) l.dedup :=
    List.perm_insertionSort _ _
  have : l.dedup = [] := by
    have := hperm.length_eq
    rw [sortedSet] at hs
    rw [hs] at this
    exact List.eq_nil_of_length_eq_zero this.symm
  exact h ((List.dedup_eq_nil l).mp this)

/-- C9: on a nonempty cutoff list, `create_mesh2` returns normally and
the caller observes: the `cutoffs` list rewritten elementwise by the
clamp (elements strictly inside the range unchanged, elements at or
beyond an extremum replaced by their clamped value), and each string
entry of `cmap_limits` replaced by the numeric minimum (slot 0) or
maximum (slot 1) of the surviving — clamped, deduplicated, sorted —
cutoffs, numeric entries being left unchanged. -/
theorem create_mesh2_state_mutation
    (field_min field_max : ℚ) (cutoffs : List ℚ)
    (cm0 cm1 : CmapEntry) (h : cutoffs ≠ []) :
    create_mesh2_state field_min field_max cutoffs (cm0, cm1) =
        .ok (cutoffs.map (create_mesh2_clamp field_min field_max),
          cmapResolve cm0
            ((create_mesh2_cutoffs field_min field_max cutoffs).min?.getD 0),
          cmapResolve cm1
            ((create_mesh2_cutoffs field_min field_max cutoffs).max?.getD 0)) ∧
      ∀ c ∈ cutoffs,
        (field_min < c ∧ c < field_max →
          create_mesh2_clamp field_min field_max c = c) ∧
        (c ≤ field_min →
          create_mesh2_clamp field_min field_max c = 1.0001 * field_min) ∧
        (field_min < c → field_max ≤ c →
          create_mesh2_clamp field_min field_max c = 0.9999 * field_max) := by
  have hne : create_mesh2_clamp_loop field_min field_max cutoffs ≠ [] := by
    rw [create_mesh2_clamp_loop_eq_map]
    simpa using h
  have hsne : sortedSet (create_mesh2_clamp_loop field_min field_max cutoffs) ≠ [] :=
    sortedSet_ne_nil hne
  obtain ⟨m, hm⟩ : ∃ m,
      (sortedSet (create_mesh2_clamp_loop field_min field_max cutoffs)).min? = some m := by
    cases hl : sortedSet (create_mesh2_clamp_loop field_min field_max cutoffs) with
    | nil => exact absurd hl hsne
    | cons a as => exact ⟨as.foldl min a, List.min?_cons'⟩
  obtain ⟨M, hM⟩ : ∃ M,
      (sortedSet (create_mesh2_clamp_loop field_min field_max cutoffs)).max? = some M := by
    cases hl : sortedSet (create_mesh2_clamp_loop field_min field_max cutoffs) with
    | nil => exact absurd hl hsne
    | cons a as => exact ⟨as.foldl max a, List.max?_cons'⟩
  constructor
  · rw [create_mesh2_state,
      ← create_mesh2_clamp_loop_eq_map field_min field_max cutoffs]
    simp only [create_mesh2_cutoffs]
    cases cm0 with
    | str s =>
        cases cm1 with
        | str t => rw [hm, hM]; rfl
        | num q => rw [hm]; rfl
    | num q =>
        cases cm1 with
        | str t => rw [hM]; rfl
        | num q' => rfl
  · intro c _
    refine ⟨?_, ?_, ?_⟩
    · rintro ⟨hlo, hhi⟩
      simp [create_mesh2_clamp, not_le.mpr hlo, not_le.mpr hhi]
    · intro hle
      simp [create_mesh2_clamp, hle]
    · intro hlt hge
      simp [create_mesh2_clamp, not_le.mpr hlt, hge]

/-- C9 witness: field range `[1, 2]`, caller passes `cutoffs = [0, 3/2, 3]`
and `cmap_limits = ["a", "b"]`; after the call, the caller's list reads
`[1.0001, 3/2, 1.9998]` and both colormap limits have become numeric. -/
theorem create_mesh2_state_mutation_witness :
    create_mesh2_state 1 2 [0, 3/2, 3] (.str "a", .str "b") =
      .ok ([1.0001, 3/2, 1.9998], .num 1.0001, .num 1.9998) := by
  have hcl := (create_mesh2_state_mutation 1 2 [0, 3/2, 3]
    (.str "a") (.str "b") (by simp)).1
  rw [hcl]
  norm_num [create_mesh2_clamp, create_mesh2_cutoffs, create_mesh2_clamp_loop,
    sortedSet, List.dedup, List.insertionSort, List.orderedInsert, cmapResolve,
    List.min?, List.max?]

/-! ### util_shapes.update_device_dims and create_device_layer (dimensions)

Source (util_shapes.py lines 570-593):

    device_dims[0] = max(new_x, device_dims[0])
    device_dims[1] = max(new_y, device_dims[1])
    device_dims[2] += new_z

`create_device_layer` (lines 1212-1261) threads `device_dims` through
one `update_device_dims(..., fx, fy, 0)` call per non-vacuum feature
(every `write_*_feature` helper passes `0` as the z increment) and then
closes the layer with `update_device_dims(device_dims, 0, 0, thickness)`.
-/

/-- util_shapes.update_device_dims on a `[x, y, z]` dimensions triple. -/
def update_device_dims (device_dims : ℚ × ℚ × ℚ) (new_x new_y new_z : ℚ) :
    ℚ × ℚ × ℚ :=
  (max new_x device_dims.1, max new_y device_dims.2.1,
    device_dims.2.2 + new_z)

/-- Dimension accumulation performed by `create_device_layer`: one
`update_device_dims` call with z-increment `0` per written feature
(carrying that feature's x/y extents), then the closing
`update_device_dims(device_dims, 0, 0, thickness)`. -/
def create_device_layer_dims (features : List (ℚ × ℚ))
    (device_dims : ℚ × ℚ × ℚ) (thickness : ℚ) : ℚ × ℚ × ℚ :=
  update_device_dims
    (features.foldl (fun d f => update_device_dims d f.1 f.2 0) device_dims)
    0 0 thickness

theorem create_device_layer_dims_fold_facts (features : List (ℚ × ℚ))
    (d : ℚ × ℚ × ℚ) :
    d.1 ≤ (features.foldl (fun d f => update_device_dims d f.1 f.2 0) d).1 ∧
      d.2.1 ≤ (features.foldl (fun d f => update_device_dims d f.1 f.2 0) d).2.1 ∧
      (features.foldl (fun d f => update_device_dims d f.1 f.2 0) d).2.2 = d.2.2 := by
  induction features generalizing d with
  | nil => exact ⟨le_refl _, le_refl _, rfl⟩
  | cons f rest ih =>
      obtain ⟨ih1, ih2, ih3⟩ := ih (update_device_dims d f.1 f.2 0)
      refine ⟨le_trans ?_ ih1, le_trans ?_ ih2, by
        rw [List.foldl_cons, ih3]; simp [update_device_dims]⟩
      · exact le_max_right _ _
      · exact le_max_right _ _

/-- C3: for every device-dimensions triple and every layer processed by
`create_device_layer`, the resulting x and y entries are each ≥ their
prior values and the resulting z entry equals the prior z plus exactly
the processed layer's thickness. -/
theorem create_device_layer_dims_monotone (features : List (ℚ × ℚ))
    (device_dims : ℚ × ℚ × ℚ) (thickness : ℚ) :
    device_dims.1 ≤ (create_device_layer_dims features device_dims thickness).1 ∧
      device_dims.2.1 ≤
        (create_device_layer_dims features device_dims thickness).2.1 ∧
      (create_device_layer_dims features device_dims thickness).2.2 =
        device_dims.2.2 + thickness := by
  obtain ⟨h1, h2, h3⟩ := create_device_layer_dims_fold_facts features device_dims
  refine ⟨le_trans h1 ?_, le_trans h2 ?_, ?_⟩
  · exact le_max_right _ _
  · exact le_max_right _ _
  · have hz : (create_device_layer_dims features device_dims thickness).2.2 =
        (features.foldl (fun d f => update_device_dims d f.1 f.2 0)
          device_dims).2.2 + thickness := rfl
    rw [hz, h3]

/-! ### util_shapes.add_slab

Source (util_shapes.py lines 168-244). The numeric content of the
emitted prism — halfwidths, sweep bounds, shifted outline points, and
the layer-type-dependent translation vector — is modelled; the POV-Ray
text around it is fixed formatting of these values.
-/

/-- Numeric content of the slab produced by `add_slab`. -/
structure SlabData where
  halfwidth : ℚ × ℚ
  sweep : ℚ × ℚ
  points : List (ℚ × ℚ)
  translate : ℚ × ℚ × ℚ
deriving DecidableEq, Repr

/-- util_shapes.add_slab: outline and placement of a substrate /
coating / background / isosurface slab. -/
def add_slab (lattice_vecs : (ℚ × ℚ) × (ℚ × ℚ)) (thickness : ℚ)
    (device_dims : ℚ × ℚ × ℚ) (layer_type : String) : SlabData :=
  let halfwidth : ℚ × ℚ :=
    (0.5 * (lattice_vecs.1.1 + lattice_vecs.2.1),
     0.5 * (lattice_vecs.1.2 + lattice_vecs.2.2))
  let end0 : ℚ := -0.5 * thickness
  let end1 : ℚ := 0.5 * thickness
  let points : List (ℚ × ℚ) :=
    [(0, 0),
     (lattice_vecs.1.1, lattice_vecs.1.2),
     (lattice_vecs.1.1 + lattice_vecs.2.1, lattice_vecs.1.2 + lattice_vecs.2.2),
     (lattice_vecs.2.1, lattice_vecs.2.2)]
  let shifted := points.map fun p => (p.1 - halfwidth.1, p.2 - halfwidth.2)
  let translate : ℚ × ℚ × ℚ :=
    if layer_type = "coating" then
      (device_dims.1, device_dims.2.1, end1 + device_dims.2.2)
    else if layer_type = "background" then
      (0, 0, end0 - device_dims.2.2)
    else if layer_type = "isosurface" then
      (0.5 * device_dims.1, 0.5 * device_dims.2.1, -0.5 * thickness)
    else
      (device_dims.1, device_dims.2.1, end0 - device_dims.2.2)
  ⟨halfwidth, (end0, end1 * 1.000001), shifted, translate⟩

/-- C5: for every pair of lattice vectors, thickness, device-dimensions
triple and layer_type string (in particular "substrate", "coating",
"background" and "isosurface"), the halfwidth pair returned by
`add_slab` is half the componentwise sum of the two lattice vectors —
independent of the layer type. -/
theorem add_slab_halfwidth (lattice_vecs : (ℚ × ℚ) × (ℚ × ℚ))
    (thickness : ℚ) (device_dims : ℚ × ℚ × ℚ) (layer_type : String) :
    (add_slab lattice_vecs thickness device_dims layer_type).halfwidth =
      (0.5 * (lattice_vecs.1.1 + lattice_vecs.2.1),
       0.5 * (lattice_vecs.1.2 + lattice_vecs.2.2)) := by
  rfl

/-! ### util_shapes.check_for_false_silos and layer classification

Source (util_shapes.py lines 895-937 and 1197-1210). A layer's shapes
dictionary is keyed by the stringified index; each entry carries a
`material`, a `shape` kind, and shape-kind-specific `shape_vars`
(`radius` for circles, `halfwidths` for ellipses/rectangles,
`vertices` for polygons). The classification loop produces one type
string per shape: `"Vacuum"` when the material is vacuum, the shape
kind otherwise; `check_for_false_silos` then retags position `iii` as
`"silo"` whenever a non-vacuum type is immediately followed by a
`"Vacuum"` whose shape has nonzero dimensions.
-/

/-- One entry of a layer's `shapes` dictionary. The record carries all
`shape_vars` fields; the Python code only reads the field matching the
entry's `shape` kind. -/
structure ShapeRec where
  material : String
  shape : String
  radius : ℚ
  halfwidths : List ℚ
  vertices : List (ℚ × ℚ)
deriving DecidableEq, Repr

instance : Inhabited ShapeRec := ⟨⟨"", "", 0, [], []⟩⟩

/-- The degenerate-vacuum test of `check_for_false_silos` at position
`j = iii + 1`: vacuum shapes with zero dimensions are "false silos"
that must not produce a boolean difference. -/
def is_false_silo (shapes : List ShapeRec) (j : ℕ) : Bool :=
  let s := shapes.getD j default
  if s.shape == "circle" then s.radius == 0
  else if s.shape == "ellipse" || s.shape == "rectangle" then
    s.halfwidths == [0, 0]
  else if s.shape == "polygon" then decide (s.vertices.length < 3)
  else false

/-- util_shapes.check_for_false_silos: the
`for iii in range(len(layer_type)-1)` loop, retagging
`layer_type[iii] = "silo"` in place. The loop writes only index `iii`
at step `iii` and reads indices `iii` and `iii + 1`, so each write is
the `List.set` of the running list. -/
def check_for_false_silos (shapes : List ShapeRec) (layer_type : List String) :
    List String :=
  (List.range (layer_type.length - 1)).foldl
    (fun acc iii =>
      if acc.getD iii "" ≠ "Vacuum" ∧ acc.getD (iii + 1) "" = "Vacuum" ∧
          is_false_silo shapes (iii + 1) = false
      then acc.set iii "silo"
      else acc)
    layer_type

/-- The within-layer classification of `create_device_layer`
(util_shapes.py lines 1197-1205): vacuum materials become `"Vacuum"`,
everything else keeps its shape kind. -/
def layer_type_of (shapes : List ShapeRec) : List String :=
  shapes.map fun s =>
    if s.material = "Vacuum" ∨ s.material = "vacuum" then "Vacuum" else s.shape

/-- Layer types as computed by `create_device_layer`:
`check_for_false_silos` runs exactly when some shape's material is
vacuum (`has_silo`). -/
def create_device_layer_types (shapes : List ShapeRec) : List String :=
  let lt := layer_type_of shapes
  if shapes.any (fun s => s.material == "Vacuum" || s.material == "vacuum")
  then check_for_false_silos shapes lt
  else lt

theorem check_for_false_silos_id_of_no_trailing_vacuum
    (shapes : List ShapeRec) (lt : List String)
    (h : ∀ i : ℕ, ¬ (lt.getD i "" ≠ "Vacuum" ∧ lt.getD (i + 1) "" = "Vacuum")) :
    check_for_false_silos shapes lt = lt := by
  rw [check_for_false_silos]
  generalize List.range (lt.length - 1) = idxs
  induction idxs with
  | nil => rfl
  | cons i rest ih =>
      rw [List.foldl_cons]
      have : ¬ (lt.getD i "" ≠ "Vacuum" ∧ lt.getD (i + 1) "" = "Vacuum" ∧
          is_false_silo shapes (i + 1) = false) := by
        intro hcontra
        exact h i ⟨hcontra.1, hcontra.2.1⟩
      rw [if_neg this]
      exact ih

/-- C2 (amended): in `create_device_layer`'s layer classification,
a within-layer sequence `[solid, vacuum, vacuum]` has the solid's
position tagged `"silo"` PROVIDED the vacuum immediately following the
solid has nonzero dimensions; when that vacuum is degenerate (a "false
silo": zero circle radius, `[0, 0]` halfwidths, or a polygon with fewer
than 3 vertices) the solid keeps its shape tag; and a shape sequence in
which no vacuum follows a non-vacuum shape is left entirely untagged by
the classification. -/
theorem create_device_layer_silo_tagging :
    (∀ s0 s1 s2 : ShapeRec,
      ¬ (s0.material = "Vacuum" ∨ s0.material = "vacuum") →
      s0.shape ≠ "Vacuum" →
      (s1.material = "Vacuum" ∨ s1.material = "vacuum") →
      (s2.material = "Vacuum" ∨ s2.material = "vacuum") →
      is_false_silo [s0, s1, s2] 1 = false →
      (create_device_layer_types [s0, s1, s2]).getD 0 "" = "silo") ∧
    (∀ s0 s1 s2 : ShapeRec,
      ¬ (s0.material = "Vacuum" ∨ s0.material = "vacuum") →
      s0.shape ≠ "Vacuum" →
      (s1.material = "Vacuum" ∨ s1.material = "vacuum") →
      (s2.material = "Vacuum" ∨ s2.material = "vacuum") →
      is_false_silo [s0, s1, s2] 1 = true →
      (create_device_layer_types [s0, s1, s2]).getD 0 "" = s0.shape) ∧
    (∀ shapes : List ShapeRec,
      (∀ i : ℕ, ¬ ((layer_type_of shapes).getD i "" ≠ "Vacuum" ∧
        (layer_type_of shapes).getD (i + 1) "" = "Vacuum")) →
      create_device_layer_types shapes = layer_type_of shapes) := by
  refine ⟨?_, ?_, ?_⟩
  · intro s0 s1 s2 h0 h0s h1 h2 hfalse
    have hany : ([s0, s1, s2].any
        (fun s => s.material == "Vacuum" || s.material == "vacuum")) = true := by
      simp only [List.any_cons, List.any_nil, Bool.or_eq_true, beq_iff_eq]
      tauto
    have hlt : layer_type_of [s0, s1, s2] = [s0.shape, "Vacuum", "Vacuum"] := by
      simp [layer_type_of, h0, h1, h2]
    rw [create_device_layer_types]
    simp only [hany, if_true, hlt]
    rw [check_for_false_silos]
    rw [show List.range (([s0.shape, "Vacuum", "Vacuum"] : List String).length - 1)
      = [0, 1] from rfl]
    simp [h0s, hfalse]
  · intro s0 s1 s2 h0 h0s h1 h2 htrue
    have hany : ([s0, s1, s2].any
        (fun s => s.material == "Vacuum" || s.material == "vacuum")) = true := by
      simp only [List.any_cons, List.any_nil, Bool.or_eq_true, beq_iff_eq]
      tauto
    have hlt : layer_type_of [s0, s1, s2] = [s0.shape, "Vacuum", "Vacuum"] := by
      simp [layer_type_of, h0, h1, h2]
    rw [create_device_layer_types]
    simp only [hany, if_true, hlt]
    rw [check_for_false_silos]
    rw [show List.range (([s0.shape, "Vacuum", "Vacuum"] : List String).length - 1)
      = [0, 1] from rfl]
    simp [htrue]
  · intro shapes h
    rw [create_device_layer_types]
    split
    · exact check_for_false_silos_id_of_no_trailing_vacuum shapes _ h
    · rfl

/-- C2 counterexample: the sequence `[solid circle, vacuum circle of
radius 0, vacuum circle]` is a `[solid, vacuum, vacuum]` pattern, yet
the solid's position keeps the tag `"circle"` — the zero-radius vacuum
is rejected as a false silo, so the claim's unconditional tagging
fails. -/
theorem create_device_layer_silo_tagging_counterexample :
    (create_device_layer_types
        [⟨"Si", "circle", 1, [], []⟩,
         ⟨"Vacuum", "circle", 0, [], []⟩,
         ⟨"Vacuum", "circle", 1, [], []⟩]).getD 0 "" = "circle" ∧
      "circle" ≠ "silo" := by
  constructor
  · rfl
  · decide

/-- C2 witness: a solid circle followed by two nonzero-radius vacuum
circles is tagged as a silo at position 0, and a single solid circle
(no vacuum anywhere) is left untouched by the classification. -/
theorem create_device_layer_silo_tagging_witness :
    (create_device_layer_types
        [⟨"Si", "circle", 1, [], []⟩,
         ⟨"Vacuum", "circle", 1, [], []⟩,
         ⟨"Vacuum", "circle", 1, [], []⟩]).getD 0 "" = "silo" ∧
      create_device_layer_types [⟨"Si", "circle", 1, [], []⟩] =
        layer_type_of [⟨"Si", "circle", 1, [], []⟩] := by
  constructor
  · exact create_device_layer_silo_tagging.1
      ⟨"Si", "circle", 1, [], []⟩ ⟨"Vacuum", "circle", 1, [], []⟩
      ⟨"Vacuum", "circle", 1, [], []⟩ (by simp) (by simp) (by simp) (by simp)
      (by rfl)
  · exact create_device_layer_silo_tagging.2.2 [⟨"Si", "circle", 1, [], []⟩]
      (by intro i; cases i <;> simp [layer_type_of])

/-! ### util_field.process_field_array / povray_iso.process_field_array

Source (identical in util_field.py lines 17-72 and povray_iso.py lines
264-315):

    if field_array.ndim != 5:
        raise RuntimeError("field_array must be 5D")
    field_array = field_array[::-1, :, :, :, :]
    field_array = field_array.swapaxes(0, 2)
    nx, ny, nz, _, _ = field_array.shape
    if center:
        field_array = double_roll(field_array, nx//2, ny//2)
    return field_array, nx, ny, nz

A numpy array is modelled as its shape together with a total index
function; `np.roll(a, n, axis)[i] = a[(i - n) mod d]` along the rolled
axis, with Python's nonnegative `mod`.
-/

/-- A numpy ndarray: a shape list and an index function (the function
is only meaningful on indices inside the shape). -/
structure NDArray where
  shape : List ℕ
  data : List ℕ → ℚ

/-- Python's `%` on an integer with a natural modulus (nonnegative
result). -/
def pymod (x : ℤ) (m : ℕ) : ℕ :=
  (x.emod m).toNat

/-- `field_array[::-1, :, :, :, :]`: reversal along the first axis. -/
def reverse_axis0 (a : NDArray) : NDArray :=
  ⟨a.shape, fun idx =>
    a.data (match idx with
      | [] => []
      | i :: rest => (a.shape.getD 0 0 - 1 - i) :: rest)⟩

/-- `swapaxes(0, 2)` applied to a shape or index list. -/
def swapList02 {α : Type} (l : List α) : List α :=
  match l with
  | a :: b :: c :: rest => c :: b :: a :: rest
  | l => l

/-- `field_array.swapaxes(0, 2)`. -/
def swapaxes02 (a : NDArray) : NDArray :=
  ⟨swapList02 a.shape, fun idx => a.data (swapList02 idx)⟩

/-- `np.roll(array, n, axis=axis)`. -/
def np_roll (a : NDArray) (n : ℤ) (axis : ℕ) : NDArray :=
  ⟨a.shape, fun idx =>
    a.data (idx.set axis
      (pymod ((idx.getD axis 0 : ℤ) - n) (a.shape.getD axis 0)))⟩

/-- util_field.double_roll: roll along axis 0 by `n0`, then along
axis 1 by `n1` (the `np.copy` has no observable effect). -/
def double_roll (array : NDArray) (n0 n1 : ℤ) : NDArray :=
  np_roll (np_roll array n0 0) n1 1

/-- util_field.process_field_array / povray_iso.process_field_array. -/
def process_field_array (field_array : NDArray) (center : Bool) :
    Except String (NDArray × ℕ × ℕ × ℕ) :=
  if field_array.shape.length ≠ 5 then
    .error "RuntimeError: field_array must be 5D"
  else
    let a1 := reverse_axis0 field_array
    let a2 := swapaxes02 a1
    let nx := a2.shape.getD 0 0
    let ny := a2.shape.getD 1 0
    let nz := a2.shape.getD 2 0
    let a3 := if center then double_roll a2 ((nx / 2 : ℕ)) ((ny / 2 : ℕ)) else a2
    .ok (a3, nx, ny, nz)

/-- The field value at one index of the array returned by
`process_field_array` (when it returns at all). -/
def process_field_array_data (field_array : NDArray) (center : Bool)
    (idx : List ℕ) : Option ℚ :=
  (process_field_array field_array center).toOption.map fun r => r.1.data idx

/-- The `(nx, ny, nz)` triple returned by `process_field_array`. -/
def process_field_array_dims (field_array : NDArray) (center : Bool) :
    Option (ℕ × ℕ × ℕ) :=
  (process_field_array field_array center).toOption.map fun r => r.2

/-- C7: for a 5-D array of shape `(d0, d1, d2, d3, d4)`,
`process_field_array` returns the dimension triple `(d2, d1, d0)`, and
with `center = True` the returned field satisfies
`F[x, y, z, j, k] = A[d0-1-z, (y - d1//2) mod d1, (x - d2//2) mod d2, j, k]`
(axis reversal, swap of axes 0 and 2, then the centering roll), while
with `center = False` the roll is omitted:
`F[x, y, z, j, k] = A[d0-1-z, y, x, j, k]` — for all valid indices. -/
theorem process_field_array_index_formula
    (d0 d1 d2 d3 d4 : ℕ) (f : List ℕ → ℚ) (x y z j k : ℕ)
    (hx : x < d2) (hy : y < d1) (hz : z < d0) :
    process_field_array_dims ⟨[d0, d1, d2, d3, d4], f⟩ true = some (d2, d1, d0) ∧
      process_field_array_data ⟨[d0, d1, d2, d3, d4], f⟩ true [x, y, z, j, k] =
        some (f [d0 - 1 - z, pymod ((y : ℤ) - (d1 / 2 : ℕ)) d1,
          pymod ((x : ℤ) - (d2 / 2 : ℕ)) d2, j, k]) ∧
      process_field_array_dims ⟨[d0, d1, d2, d3, d4], f⟩ false = some (d2, d1, d0) ∧
      process_field_array_data ⟨[d0, d1, d2, d3, d4], f⟩ false [x, y, z, j, k] =
        some (f [d0 - 1 - z, y, x, j, k]) := by
  refine ⟨rfl, ?_, rfl, rfl⟩
  rw [process_field_array_data, process_field_array]
  simp only [List.length_cons, List.length_nil]
  rfl

/-- C7 witness: a concrete 5-D array of shape `(4, 4, 4, 2, 3)` and the
index `(1, 2, 3, 0, 1)` realize the index formula of
`process_field_array` for both `center` settings. -/
theorem process_field_array_index_formula_witness :
    process_field_array_dims
        ⟨[4, 4, 4, 2, 3], fun idx => ((idx.foldl (· + ·) 0 : ℕ) : ℚ)⟩
        true = some (4, 4, 4) ∧
      process_field_array_data
        ⟨[4, 4, 4, 2, 3], fun idx => ((idx.foldl (· + ·) 0 : ℕ) : ℚ)⟩
        true [1, 2, 3, 0, 1] = some 4 := by
  have h := process_field_array_index_formula 4 4 4 2 3
    (fun idx => ((idx.foldl (· + ·) 0 : ℕ) : ℚ)) 1 2 3 0 1
    (by norm_num) (by norm_num) (by norm_num)
  refine ⟨h.1, ?_⟩
  rw [h.2.1]
  norm_num [pymod]
  rw [show Int.toNat 3 = 3 from rfl]
  norm_num

/-! ### povray_iso.slice_isosurface

Source (povray_iso.py lines 189-261):

    for i in range(3):
        if cut_at[i][0] > cut_at[i][1]:
            cut_at[i][0], cut_at[i][1] = cut_at[i][1], cut_at[i][0]
        assert min(cut_at[i]) >= 0, "Error: min(cut_at[i]) must be >= 0"
        assert max(cut_at[i]) <= 1, "Error: max(cut_at[i]) must be <= 1"
        for j in range(2):
            if cut_at[i][j] == 0:
                cut_at[i][j] -= 0.001
            if cut_at[i][j] == 1:
                cut_at[i][j] += 0.001
        cut_at[i][0] *= n[i]
        cut_at[i][1] *= n[i]

followed by the construction of the prism outline points from the
processed `cut_at[1]`, `cut_at[2]` pairs and the sweep bounds from
`cut_at[0]`. The two `assert` statements are explicit failures
(`AssertionError`) for out-of-range inputs.
-/

/-- The overshoot adjustment applied to each processed `cut_at` bound:
an exact `0` is pushed to `-0.001` and an exact `1` to `1.001`. -/
def slice_adjust (x : ℚ) : ℚ :=
  let x := if x = 0 then x - 0.001 else x
  if x = 1 then x + 0.001 else x

/-- One iteration of `slice_isosurface`'s `for i in range(3)` loop:
sort the pair, run both asserts, adjust the bounds, scale by `n[i]`. -/
def slice_process_pair (p : ℚ × ℚ) (ni : ℚ) : Except String (ℚ × ℚ) :=
  let p := if p.1 > p.2 then (p.2, p.1) else p
  if ¬ (min p.1 p.2 ≥ 0) then
    .error "AssertionError: Error: min(cut_at[i]) must be >= 0"
  else if ¬ (max p.1 p.2 ≤ 1) then
    .error "AssertionError: Error: max(cut_at[i]) must be <= 1"
  else
    .ok (slice_adjust p.1 * ni, slice_adjust p.2 * ni)

/-- povray_iso.slice_isosurface, up to the textual rendering of the
result: processes the three `cut_at` pairs in order (each can raise an
`AssertionError`) and builds the prism sweep bounds (from pair 0) and
outline points (from pairs 1 and 2); `subtract_box` only toggles the
`inverse` keyword in the rendered text. -/
def slice_isosurface (cut_at : (ℚ × ℚ) × (ℚ × ℚ) × (ℚ × ℚ))
    (n : ℚ × ℚ × ℚ) (subtract_box : Bool) :
    Except String ((ℚ × ℚ) × List (ℚ × ℚ) × Bool) :=
  (slice_process_pair cut_at.1 n.1).bind fun c0 =>
    (slice_process_pair cut_at.2.1 n.2.1).bind fun c1 =>
      (slice_process_pair cut_at.2.2 n.2.2).bind fun c2 =>
        .ok (c0,
          [(c1.1, c2.1), (c1.2, c2.1), (c1.2, c2.2), (c1.1, c2.2)],
          subtract_box)

theorem except_bind_error {ε α β : Type} (e : ε) (f : α → Except ε β) :
    (Except.error e : Except ε α).bind f = .error e := rfl

theorem except_bind_ok {ε α β : Type} (a : α) (f : α → Except ε β) :
    (Except.ok a : Except ε α).bind f = f a := rfl

theorem slice_process_pair_isOk (p : ℚ × ℚ) (ni : ℚ) :
    (slice_process_pair p ni).isOk = false ↔
      (min p.1 p.2 < 0 ∨ 1 < max p.1 p.2) := by
  rcases p with ⟨a, b⟩
  rw [slice_process_pair]
  by_cases hab : a > b
  · rw [if_pos hab]
    by_cases h1 : min b a ≥ 0
    · rw [if_neg (not_not_intro h1)]
      by_cases h2 : max b a ≤ 1
      · rw [if_neg (not_not_intro h2)]
        rw [min_comm b a] at h1
        rw [max_comm b a] at h2
        constructor
        · intro hfalse
          exact absurd hfalse (by simp [Except.isOk, Except.toBool])
        · rintro (hc | hc)
          · exact absurd h1 (not_le.mpr hc)
          · exact absurd h2 (not_le.mpr hc)
      · rw [if_pos h2]
        refine ⟨fun _ => Or.inr ?_, fun _ => rfl⟩
        rw [max_comm a b]
        exact lt_of_not_le h2
    · rw [if_pos h1]
      refine ⟨fun _ => Or.inl ?_, fun _ => rfl⟩
      rw [min_comm a b]
      exact lt_of_not_le h1
  · rw [if_neg hab]
    by_cases h1 : min a b ≥ 0
    · rw [if_neg (not_not_intro h1)]
      by_cases h2 : max a b ≤ 1
      · rw [if_neg (not_not_intro h2)]
        constructor
        · intro hfalse
          exact absurd hfalse (by simp [Except.isOk, Except.toBool])
        · rintro (hc | hc)
          · exact absurd h1 (not_le.mpr hc)
          · exact absurd h2 (not_le.mpr hc)
      · rw [if_pos h2]
        exact ⟨fun _ => Or.inr (lt_of_not_le h2), fun _ => rfl⟩
    · rw [if_pos h1]
      exact ⟨fun _ => Or.inl (lt_of_not_le h1), fun _ => rfl⟩

/-- C6 counterexample: the claim says `process_field_array` is the only
operation that raises an explicit failure, but `slice_isosurface`
(povray_iso) raises an `AssertionError` on the input
`cut_at = [[-0.5, 1], [0.5, 1], [0, 1]]` with `n = [4, 4, 4]`. -/
theorem slice_isosurface_raises :
    slice_isosurface ((-0.5, 1), (0.5, 1), (0, 1)) (4, 4, 4) false =
      .error "AssertionError: Error: min(cut_at[i]) must be >= 0" := by
  have hp : slice_process_pair ((-0.5 : ℚ), (1 : ℚ)) 4 =
      .error "AssertionError: Error: min(cut_at[i]) must be >= 0" := by
    rw [slice_process_pair]
    norm_num
  rw [slice_isosurface]
  simp only [hp]
  rfl

/-- C6 (amended): `process_field_array` raises its `RuntimeError`
exactly when the input array is not 5-dimensional; in addition,
`slice_isosurface` (povray_iso) raises an `AssertionError` exactly when
some `cut_at` pair has a component below 0 or above 1. These (and the
identical checks in the util_field twin of `process_field_array`) are
the explicit failures of the isosurface pipeline. -/
theorem explicit_failures_characterised :
    (∀ (a : NDArray) (center : Bool),
      (process_field_array a center).isOk = false ↔ a.shape.length ≠ 5) ∧
    (∀ (cut_at : (ℚ × ℚ) × (ℚ × ℚ) × (ℚ × ℚ)) (n : ℚ × ℚ × ℚ)
        (subtract_box : Bool),
      (slice_isosurface cut_at n subtract_box).isOk = false ↔
        (min cut_at.1.1 cut_at.1.2 < 0 ∨ 1 < max cut_at.1.1 cut_at.1.2 ∨
         min cut_at.2.1.1 cut_at.2.1.2 < 0 ∨ 1 < max cut_at.2.1.1 cut_at.2.1.2 ∨
         min cut_at.2.2.1 cut_at.2.2.2 < 0 ∨ 1 < max cut_at.2.2.1 cut_at.2.2.2)) := by
  constructor
  · intro a center
    rw [process_field_array]
    by_cases h : a.shape.length = 5
    · rw [if_neg (not_not_intro h)]
      simp [Except.isOk, Except.toBool, h]
    · rw [if_pos h]
      simp [Except.isOk, Except.toBool, h]
  · intro cut_at n subtract_box
    rw [slice_isosurface]
    rcases hp0 : slice_process_pair cut_at.1 n.1 with e0 | c0
    · have h0 := (slice_process_pair_isOk cut_at.1 n.1).mp (by rw [hp0]; rfl)
      simp only [except_bind_error]
      exact iff_of_true rfl (by tauto)
    · rcases hp1 : slice_process_pair cut_at.2.1 n.2.1 with e1 | c1
      · have h1 := (slice_process_pair_isOk cut_at.2.1 n.2.1).mp (by rw [hp1]; rfl)
        simp only [except_bind_ok, except_bind_error]
        exact iff_of_true rfl (by tauto)
      · rcases hp2 : slice_process_pair cut_at.2.2 n.2.2 with e2 | c2
        · have h2 := (slice_process_pair_isOk cut_at.2.2 n.2.2).mp (by rw [hp2]; rfl)
          simp only [except_bind_ok, except_bind_error]
          exact iff_of_true rfl (by tauto)
        · have k0 : ¬ (min cut_at.1.1 cut_at.1.2 < 0 ∨
              1 < max cut_at.1.1 cut_at.1.2) := by
            intro hc
            have hbad := (slice_process_pair_isOk cut_at.1 n.1).mpr hc
            rw [hp0] at hbad
            simp [Except.isOk, Except.toBool] at hbad
          have k1 : ¬ (min cut_at.2.1.1 cut_at.2.1.2 < 0 ∨
              1 < max cut_at.2.1.1 cut_at.2.1.2) := by
            intro hc
            have hbad := (slice_process_pair_isOk cut_at.2.1 n.2.1).mpr hc
            rw [hp1] at hbad
            simp [Except.isOk, Except.toBool] at hbad
          have k2 : ¬ (min cut_at.2.2.1 cut_at.2.2.2 < 0 ∨
              1 < max cut_at.2.2.1 cut_at.2.2.2) := by
            intro hc
            have hbad := (slice_process_pair_isOk cut_at.2.2 n.2.2).mpr hc
            rw [hp2] at hbad
            simp [Except.isOk, Except.toBool] at hbad
          simp only [except_bind_ok]
          refine iff_of_false (fun habs => Bool.noConfusion habs) ?_
          rintro (hc | hc | hc | hc | hc | hc)
          · exact k0 (Or.inl hc)
          · exact k0 (Or.inr hc)
          · exact k1 (Or.inl hc)
          · exact k1 (Or.inr hc)
          · exact k2 (Or.inl hc)
          · exact k2 (Or.inr hc)

/-! ### util_iso.write_mesh2_params / povray_iso.write_mesh2_params

Source (identical logic in util_iso.py lines 151-179 and povray_iso.py
lines 159-186):

    param_string = f"\\n\\t{parameter} {{"
    param_string += f"\\n\\t\\t{len(values)}"
    for j in range(len(values)):
        if j % 2 == 0:
            param_string += "\\n\\t\\t"
        param_string += f"<{values[j][0]:.5f}, {values[j][1]:.5f}, {values[j][2]:.5f}>"
        if j != (len(values) - 1):
            param_string += ", "
    param_string += f"\\n\\t\\t}}"

The `values_per_line` parameter appears in the signature (default 2)
but the loop tests `j % 2 == 0`, never `j % values_per_line == 0`.
-/

/-- Round to the nearest integer, ties to even (the rounding used by
Python's fixed-point float formatting). -/
def roundHalfEven (q : ℚ) : ℤ :=
  let f := ⌊q⌋
  let r := q - f
  if r < 1 / 2 then f
  else if 1 / 2 < r then f + 1
  else if f % 2 = 0 then f else f + 1

/-- Python's `format(q, ".Nf")`: fixed-point rendering with `prec`
digits after the decimal point. -/
def formatFixed (prec : ℕ) (q : ℚ) : String :=
  let n := roundHalfEven (q * 10 ^ prec)
  let sign := if n < 0 ∨ (n = 0 ∧ q < 0) then "-" else ""
  let m := n.natAbs
  let ip := m / 10 ^ prec
  let fp := m % 10 ^ prec
  let fpStr := toString fp
  let pad := String.mk (List.replicate (prec - fpStr.length) '0')
  sign ++ toString ip ++ "." ++ pad ++ fpStr

/-- util_iso.write_mesh2_params / povray_iso.write_mesh2_params. -/
def write_mesh2_params (parameter : String) (values : List (ℚ × ℚ × ℚ))
    (values_per_line : ℕ) : String :=
  let param_string := "\n\t" ++ parameter ++ " \x7b"
  let param_string := param_string ++ "\n\t\t" ++ toString values.length
  let param_string := (List.range values.length).foldl
    (fun s j =>
      let s := if j % 2 = 0 then s ++ "\n\t\t" else s
      let v := values.getD j (0, 0, 0)
      let s := s ++ "<" ++ formatFixed 5 v.1 ++ ", " ++ formatFixed 5 v.2.1
        ++ ", " ++ formatFixed 5 v.2.2 ++ ">"
      if j ≠ values.length - 1 then s ++ ", " else s)
    param_string
  param_string ++ "\n\t\t\x7d"

/-- C8: the string produced by `write_mesh2_params` does not depend on
the `values_per_line` argument — the loop breaks lines on `j % 2 == 0`
regardless — so every call (in particular the `face_indices` call of
`create_mesh2` that passes `values_per_line=3`) produces exactly the
output of `values_per_line=2`. -/
theorem write_mesh2_params_ignores_values_per_line
    (parameter : String) (values : List (ℚ × ℚ × ℚ)) (n : ℕ) :
    write_mesh2_params parameter values n =
      write_mesh2_params parameter values 2 := rfl

/-! ### util_shapes.color_and_finish

Source (util_shapes.py lines 1663-1843). The function starts from
`transmit, filter_ = 0, 0`, resolves `use_finish = material` when the
caller passed `"material"`, sets `filter_`/`transmit` inside the
if-chain for the transparency-requiring finishes
(SiO2: filter_=0.98; translucent: transmit=0.02, filter_=0.50;
glass: filter_=0.95; irid: filter_=0.7), picks the color from the
default dictionary or the custom color, pads a 3-element color with
two zeros, and finally — for `use_finish` in
["SiO2", "translucent", "glass", "irid"] — overwrites
`color[3] = transmit` and `color[4] = filter_` before emitting
`pigment { color rgbft <color[0], ..., color[4]> }`. In POV-Ray's
`rgbft` vector the 4th slot is FILTER and the 5th is TRANSMIT, so the
assignment stores each value in the other quantity's slot. -/

/-- The `(transmit, filter_)` pair set by `color_and_finish`'s finish
if-chain for a resolved finish name. -/
def finish_transmit_filter (use_finish : String) : ℚ × ℚ :=
  if use_finish = "SiO2" then (0, 0.98)
  else if use_finish = "translucent" then (0.02, 0.50)
  else if use_finish = "glass" then (0, 0.95)
  else if use_finish = "irid" then (0, 0.7)
  else (0, 0)

/-- The five numbers emitted inside `pigment { color rgbft <...> }` by
`color_and_finish` (the finish text around them does not touch the
color). -/
def color_and_finish_rgbft (default_color_dict : String → List ℚ)
    (material : String) (use_default_colors : Bool)
    (custom_color : List ℚ) (use_finish : String) : List ℚ :=
  let use_finish := if use_finish = "material" then material else use_finish
  let tf := finish_transmit_filter use_finish
  let color := if use_default_colors then default_color_dict material
    else custom_color
  let color := if color.length = 3 then color ++ [0, 0] else color
  if use_finish = "SiO2" ∨ use_finish = "translucent" ∨
      use_finish = "glass" ∨ use_finish = "irid" then
    (color.set 3 tf.1).set 4 tf.2
  else color

/-- C10: for `use_finish` in SiO2/translucent/glass/irid and a
5-element caller color, the emitted rgbft vector keeps the first three
components and has its 4th slot (POV-Ray's filter slot) overwritten
with the finish's TRANSMIT value and its 5th slot (POV-Ray's transmit
slot) overwritten with the finish's FILTER value — for glass the 4th
component becomes 0 and the 5th 0.95; for any other resolved finish the
caller's color components are emitted unmodified. -/
theorem color_and_finish_rgbft_swap
    (default_color_dict : String → List ℚ) (material : String)
    (c0 c1 c2 c3 c4 : ℚ) (use_finish : String) :
    (use_finish = "SiO2" ∨ use_finish = "translucent" ∨
        use_finish = "glass" ∨ use_finish = "irid" →
      color_and_finish_rgbft default_color_dict material false
          [c0, c1, c2, c3, c4] use_finish =
        [c0, c1, c2, (finish_transmit_filter use_finish).1,
          (finish_transmit_filter use_finish).2]) ∧
    (use_finish = "glass" →
      color_and_finish_rgbft default_color_dict material false
          [c0, c1, c2, c3, c4] use_finish = [c0, c1, c2, 0, 0.95]) ∧
    (¬ ((if use_finish = "material" then material else use_finish) = "SiO2" ∨
        (if use_finish = "material" then material else use_finish) = "translucent" ∨
        (if use_finish = "material" then material else use_finish) = "glass" ∨
        (if use_finish = "material" then material else use_finish) = "irid") →
      color_and_finish_rgbft default_color_dict material false
          [c0, c1, c2, c3, c4] use_finish = [c0, c1, c2, c3, c4]) := by
  refine ⟨?_, ?_, ?_⟩
  · intro hin
    have hnotmat : use_finish ≠ "material" := by
      rcases hin with h | h | h | h <;> rw [h] <;> decide
    rw [color_and_finish_rgbft]
    simp only [if_neg hnotmat]
    rw [if_pos hin]
    rcases hin with h | h | h | h <;> subst h <;> rfl
  · intro hg
    subst hg
    rfl
  · intro hout
    rw [color_and_finish_rgbft]
    rw [if_neg hout]
    rfl

/-- C10 witness: with the "glass" finish a 5-element custom color
`[0.1, 0.2, 0.3, 0.4, 0.5]` is emitted as `[0.1, 0.2, 0.3, 0, 0.95]`
(transmit 0 lands in the 4th slot, filter 0.95 in the 5th), while the
"dull" finish leaves the same color untouched. -/
theorem color_and_finish_rgbft_swap_witness :
    color_and_finish_rgbft (fun _ => []) "Si" false
        [0.1, 0.2, 0.3, 0.4, 0.5] "glass" = [0.1, 0.2, 0.3, 0, 0.95] ∧
      color_and_finish_rgbft (fun _ => []) "Si" false
        [0.1, 0.2, 0.3, 0.4, 0.5] "dull" = [0.1, 0.2, 0.3, 0.4, 0.5] := by
  constructor
  · exact (color_and_finish_rgbft_swap (fun _ => []) "Si"
      0.1 0.2 0.3 0.4 0.5 "glass").2.1 rfl
  · exact (color_and_finish_rgbft_swap (fun _ => []) "Si"
      0.1 0.2 0.3 0.4 0.5 "dull").2.2 (by decide)

end RenderTools